import Mathlib

/-!
Shallow embedding of the jobby application core (app.js): the email-check
classification pipeline, the job save/patch store operations, and the
scan loop, together with theorems settling the specification claims.

All definitions are transcribed from `src/app.js` (the primary variant,
lines 1-474); line references in doc comments point there.
-/

namespace Jobby

/-- JavaScript `String.prototype.includes`: `jsIncludes hay pat` is true iff
`pat` occurs as a contiguous substring of `hay`. -/
def charsInfix (pat : List Char) : List Char → Bool
  | [] => pat.isEmpty
  | c :: t => pat.isPrefixOf (c :: t) || charsInfix pat t

def jsIncludes (hay pat : String) : Bool :=
  charsInfix pat.data hay.data

/-- JavaScript truthiness of an optional string field: `undefined` and the
empty string are falsy, every other string is truthy. -/
def truthy : Option String → Bool
  | none => false
  | some s => !s.isEmpty

/-- JavaScript `a || d` for an optional string `a` and string default `d`:
yields `d` when `a` is `undefined` or empty. -/
def jsOr (a : Option String) (d : String) : String :=
  match a with
  | none => d
  | some s => if s.isEmpty then d else s

/-- JavaScript `String.prototype.toLowerCase`, as character-wise lowering
of the string (the subjects and keywords involved are ASCII). -/
def jsToLower (s : String) : String :=
  String.mk (s.data.map Char.toLower)

/-- Positive keyword set, app.js lines 122-125. -/
def POSITIVE_KEYWORDS : List String :=
  ["interview", "next step", "move forward", "schedule",
   "congratulations", "offer", "phone screen"]

/-- Negative keyword set, app.js lines 127-130. -/
def NEGATIVE_KEYWORDS : List String :=
  ["unfortunately", "not moving forward", "not selected",
   "regret to inform", "position has been filled"]

/-- `POSITIVE_KEYWORDS.some(k => text.includes(k))`, app.js line 437. -/
def hasPositive (text : String) : Bool :=
  POSITIVE_KEYWORDS.any (fun k => jsIncludes text k)

/-- `NEGATIVE_KEYWORDS.some(k => text.includes(k))`, app.js line 438. -/
def hasNegative (text : String) : Bool :=
  NEGATIVE_KEYWORDS.any (fun k => jsIncludes text k)

/-- The verdict the pipeline assigns to a lowercased haystack: messages are
pushed with type `hasPositive ? positive : negative` when either keyword
set matches (app.js lines 440-443) and are dropped (verdict none)
otherwise. -/
def classify (text : String) : String :=
  if hasPositive text then "positive"
  else if hasNegative text then "negative"
  else "none"

/-- A single RFC-822 style header of a fetched message. -/
structure Header where
  name : String
  value : String
deriving DecidableEq, Repr

/-- A fetched mail message: `email.data.payload.headers`. -/
structure Message where
  headers : List Header
deriving DecidableEq, Repr

/-- `headers.find(h => h.name === n)?.value || ''`, app.js lines 432-433. -/
def headerValue (headers : List Header) (n : String) : String :=
  match headers.find? (fun h => h.name == n) with
  | some h => h.value
  | none => ""

/-- The update record pushed by the scan loop: the object literal
`{company: from, type: ..., subject}` of app.js lines 441-445. -/
structure Update where
  company : String
  type : String
  subject : String
deriving DecidableEq, Repr

/-- The key/value fields of the JSON object serialized for an update
record: exactly the three keys of the object literal at app.js 441-445. -/
def Update.fields (u : Update) : List (String × String) :=
  [("company", u.company), ("type", u.type), ("subject", u.subject)]

/-- Look a key up in a serialized JSON object (first occurrence). -/
def lookupField (fs : List (String × String)) (k : String) : Option String :=
  (fs.find? (fun p => p.1 == k)).map (fun p => p.2)

/-- Per-message body of the scan loop, app.js lines 431-447: extract the
Subject and From headers, lowercase the subject, test both keyword sets,
and push an update record iff either matches. -/
def processMessage (msg : Message) : Option Update :=
  let subject := headerValue msg.headers "Subject"
  let sender := headerValue msg.headers "From"
  let text := jsToLower subject
  let hp := hasPositive text
  let hn := hasNegative text
  if hp || hn then
    some { company := sender, type := if hp then "positive" else "negative",
           subject := subject }
  else
    none

/-- A tracked job record, jobSchema of app.js lines 54-62. `id` stands for
the Mongo document id; `status` is `Option String` because a Mongoose save
with `status` assigned `undefined` unsets the path, and the enum validator
skips absent values. Timestamps are abstracted to naturals. -/
structure Job where
  id : Nat
  jobId : String
  title : String
  company : String
  link : String
  status : Option String
  dateAdded : Nat
  lastUpdated : Nat
deriving DecidableEq, Repr

/-- The tracked-job collection. -/
abbrev Store := List Job

/-- A JavaScript error as inspected by the catch handler of app.js lines
451-461: a numeric `code` (possibly absent) and a message string. -/
structure JsError where
  code : Option Nat
  message : String
deriving DecidableEq, Repr

/-- The mail provider as consumed by the scan: the listing call and the
per-message fetch, each of which can fail. -/
structure Mailbox where
  listResult : Except JsError (List Nat)
  getResult : Nat → Except JsError Message

/-- The JSON response of GET /api/check-emails, app.js lines 402-462. -/
inductive CheckResponse where
  | notConnected
  | updates (us : List Update)
  | tokenExpired
  | checkFailed (message : String)
deriving DecidableEq, Repr

/-- Result of the check-emails handler: its response, the job store after
the request (the handler never touches the store), and whether the
`gmail_tokens` cookie was cleared. -/
structure CheckResult where
  response : CheckResponse
  store : Store
  cookieCleared : Bool

/-- The scan loop of app.js lines 424-447: fetch each listed message in
order and push its update record; an exception from any single fetch
propagates out of the loop (there is no per-message catch), discarding all
updates collected so far. -/
def scanMessages (mb : Mailbox) : List Nat → Except JsError (List Update)
  | [] => Except.ok []
  | i :: rest =>
    match mb.getResult i with
    | Except.error e => Except.error e
    | Except.ok msg =>
      match scanMessages mb rest with
      | Except.error e => Except.error e
      | Except.ok us =>
        Except.ok (match processMessage msg with
                   | some u => u :: us
                   | none => us)

/-- The catch branch of app.js lines 451-461: a 401 code or a message
containing invalid_grant clears the cookie and reports token expiry. -/
def handleCheckError (store : Store) (e : JsError) : CheckResult :=
  if e.code == some 401 || jsIncludes e.message "invalid_grant" then
    { response := CheckResponse.tokenExpired, store := store,
      cookieCleared := true }
  else
    { response := CheckResponse.checkFailed e.message, store := store,
      cookieCleared := false }

/-- GET /api/check-emails, app.js lines 402-462: without a token cookie it
reports not connected; otherwise it lists messages, runs the scan loop,
and returns the collected updates. It performs no read or write on the
tracked-job store. -/
def checkEmails (cookie : Option String) (mb : Mailbox) (store : Store) :
    CheckResult :=
  match cookie with
  | none =>
    { response := CheckResponse.notConnected, store := store,
      cookieCleared := false }
  | some _ =>
    match mb.listResult with
    | Except.error e => handleCheckError store e
    | Except.ok ids =>
      match scanMessages mb ids with
      | Except.error e => handleCheckError store e
      | Except.ok us =>
        { response := CheckResponse.updates us, store := store,
          cookieCleared := false }

/-- The status enum of the job schema, app.js line 59. -/
def STATUS_ENUM : List String :=
  ["saved", "applied", "interviewing", "rejected", "offer"]

/-- Mongoose enum validation on a document save: an absent value is
skipped, a present value must belong to the enum. -/
def validStatus : Option String → Bool
  | none => true
  | some s => STATUS_ENUM.contains s

/-- The request body of POST /api/jobs; every field may be absent. -/
structure SaveBody where
  jobId : Option String
  title : Option String
  company : Option String
  link : Option String
  status : Option String
deriving DecidableEq, Repr

/-- Environment of a save request: whether MONGO_URI is set, whether the
database connection succeeds, the clock, and the document id Mongo would
assign to a newly created record. -/
structure SaveEnv where
  mongoUriSet : Bool
  connectOk : Bool
  now : Nat
  newId : Nat
deriving DecidableEq, Repr

/-- The JSON response of POST /api/jobs, app.js lines 216-281. -/
inductive SaveResponse where
  | validationError
  | dbNotConfigured
  | saveFailed
  | updated (j : Job)
  | created (j : Job)
deriving DecidableEq, Repr

/-- HTTP status of each save response, app.js lines 223, 233, 255, 268,
275. -/
def SaveResponse.httpStatus : SaveResponse → Nat
  | SaveResponse.validationError => 400
  | SaveResponse.dbNotConfigured => 500
  | SaveResponse.saveFailed => 500
  | SaveResponse.updated _ => 200
  | SaveResponse.created _ => 200

/-- The error string of each save response, app.js lines 225, 235, 277. -/
def SaveResponse.errorLabel : SaveResponse → Option String
  | SaveResponse.validationError => some "Missing required fields"
  | SaveResponse.dbNotConfigured => some "Database not configured"
  | SaveResponse.saveFailed => some "Failed to save job"
  | SaveResponse.updated _ => none
  | SaveResponse.created _ => none

/-- Replace the first record satisfying `p` with `f` of it, mirroring a
findOne followed by a save of the mutated document. -/
def updateFirst (p : Job → Bool) (f : Job → Job) : Store → Store
  | [] => []
  | j :: rest => if p j then f j :: rest else j :: updateFirst p f rest

/-- POST /api/jobs, app.js lines 216-281: validate the four required
fields, require a configured and reachable database, then either update
the status of the record already holding this jobId (touching lastUpdated
only when the status actually differs) or create a new record. A Mongoose
enum-validation failure on the written status surfaces as the catch-all
save failure, with the store unchanged. -/
def saveJob (env : SaveEnv) (body : SaveBody) (store : Store) :
    SaveResponse × Store :=
  if !(truthy body.jobId && truthy body.title &&
       truthy body.company && truthy body.link) then
    (SaveResponse.validationError, store)
  else if !env.mongoUriSet then
    (SaveResponse.dbNotConfigured, store)
  else if !env.connectOk then
    (SaveResponse.saveFailed, store)
  else
    match store.find? (fun j => some j.jobId == body.jobId) with
    | some existingJob =>
      if existingJob.status != body.status then
        if validStatus body.status then
          let j' : Job :=
            { existingJob with status := body.status,
                               lastUpdated := env.now }
          (SaveResponse.updated j',
           updateFirst (fun j => some j.jobId == body.jobId)
             (fun _ => j') store)
        else
          (SaveResponse.saveFailed, store)
      else
        (SaveResponse.updated existingJob, store)
    | none =>
      let st := jsOr body.status "saved"
      if validStatus (some st) then
        let newJob : Job :=
          { id := env.newId, jobId := (body.jobId).getD "",
            title := (body.title).getD "", company := (body.company).getD "",
            link := (body.link).getD "", status := some st,
            dateAdded := env.now, lastUpdated := env.now }
        (SaveResponse.created newJob, store ++ [newJob])
      else
        (SaveResponse.saveFailed, store)

/-- PATCH /api/jobs/:id, app.js lines 309-338: findByIdAndUpdate with
`{status, lastUpdated: new Date()}`. Mongoose strips an undefined status
from the update document, and findByIdAndUpdate runs no enum validators
by default, so any present status string is written and lastUpdated is
set unconditionally. Returns the updated document, or none for a 404. -/
def patchJob (now : Nat) (targetId : Nat) (bodyStatus : Option String)
    (store : Store) : Option Job × Store :=
  match store.find? (fun j => j.id == targetId) with
  | none => (none, store)
  | some j =>
    let j' : Job :=
      { j with status := match bodyStatus with
                         | some s => some s
                         | none => j.status,
               lastUpdated := now }
    (some j', updateFirst (fun x => x.id == targetId) (fun _ => j') store)

/-! Concrete fixtures used by counterexamples and witnesses. -/

/-- A message whose subject holds both a positive and a negative keyword. -/
def c1msg : Message :=
  { headers := [{ name := "Subject", value := "Unfortunately interview" },
                { name := "From", value := "hr@x.com" }] }

/-- A message whose subject holds a negative keyword only. -/
def c2msg : Message :=
  { headers := [{ name := "Subject", value := "Unfortunately" },
                { name := "From", value := "noreply@corp.com" }] }

/-- A positive message with a mixed-case sender header. -/
def c3msg : Message :=
  { headers := [{ name := "Subject", value := "Interview invitation" },
                { name := "From", value := "HR@Acme.io" }] }

/-- A message matching neither keyword set. -/
def c6msg : Message :=
  { headers := [{ name := "Subject", value := "Hello team" },
                { name := "From", value := "a@b.c" }] }

/-- The fetch error of the failing message in the mixed mailbox. -/
def boomErr : JsError := { code := none, message := "boom" }

/-- A mailbox whose listing succeeds with two messages: the first fetches
and classifies fine, the second fails to fetch. -/
def mbBoom : Mailbox :=
  { listResult := Except.ok [1, 2],
    getResult := fun i =>
      if i == 1 then Except.ok c1msg else Except.error boomErr }

/-- A tracked job already in the rejected terminal status. -/
def jrej : Job :=
  { id := 3, jobId := "t1", title := "Dev", company := "Acme", link := "l",
    status := some "rejected", dateAdded := 0, lastUpdated := 0 }

/-- A tracked job in the applied status with lastUpdated 0. -/
def j0 : Job :=
  { id := 1, jobId := "x1", title := "T", company := "C", link := "L",
    status := some "applied", dateAdded := 0, lastUpdated := 0 }

/-- A save environment with a configured, reachable database. -/
def envEx : SaveEnv :=
  { mongoUriSet := true, connectOk := true, now := 7, newId := 9 }

/-- A save request repeating the status the stored job already has. -/
def bodyNoop : SaveBody :=
  { jobId := some "x1", title := some "T", company := some "C",
    link := some "L", status := some "applied" }

/-- A save request moving the stored job to a different status. -/
def bodyChange : SaveBody :=
  { jobId := some "x1", title := some "T", company := some "C",
    link := some "L", status := some "interviewing" }

/-- A save request missing its jobId. -/
def bodyNoId : SaveBody :=
  { jobId := none, title := some "T", company := some "C",
    link := some "L", status := none }

/-! Helper lemmas. -/

theorem length_updateFirst (p : Job → Bool) (f : Job → Job) (l : Store) :
    (updateFirst p f l).length = l.length := by
  induction l with
  | nil => rfl
  | cons a t ih =>
    by_cases h : p a = true <;> simp [updateFirst, h, ih]

theorem countP_updateFirst (p : Job → Bool) (f : Job → Job) (l : Store)
    (hf : ∀ x, p x = true → p (f x) = true) :
    (updateFirst p f l).countP p = l.countP p := by
  induction l with
  | nil => rfl
  | cons a t ih =>
    by_cases h : p a = true
    · rw [updateFirst, if_pos h, List.countP_cons_of_pos _ _ (hf a h),
        List.countP_cons_of_pos _ _ h]
    · rw [updateFirst, if_neg h, List.countP_cons_of_neg _ _ h,
        List.countP_cons_of_neg _ _ h, ih]

theorem find?_updateFirst (p : Job → Bool) (f : Job → Job) (l : Store)
    (a : Job) (hfa : p (f a) = true) (h : l.find? p = some a) :
    (updateFirst p f l).find? p = some (f a) := by
  induction l with
  | nil => simp at h
  | cons b t ih =>
    by_cases hb : p b = true
    · rw [List.find?_cons_of_pos _ hb] at h
      injection h with h
      subst h
      rw [updateFirst, if_pos hb, List.find?_cons_of_pos _ hfa]
    · rw [List.find?_cons_of_neg _ hb] at h
      rw [updateFirst, if_neg hb, List.find?_cons_of_neg _ hb]
      exact ih h

theorem scanMessages_error_of_mem (mb : Mailbox) (ids : List Nat) (i : Nat)
    (e : JsError) (hmem : i ∈ ids) (hget : mb.getResult i = Except.error e) :
    ∃ e2, scanMessages mb ids = Except.error e2 := by
  induction ids with
  | nil => cases hmem
  | cons a t ih =>
    cases hmem with
    | head => exact ⟨e, by simp [scanMessages, hget]⟩
    | tail _ hmem2 =>
      cases hga : mb.getResult a with
      | error e3 => exact ⟨e3, by simp [scanMessages, hga]⟩
      | ok msg =>
        obtain ⟨e2, he2⟩ := ih hmem2
        exact ⟨e2, by simp [scanMessages, hga, he2]⟩

theorem handleCheckError_store (store : Store) (e : JsError) :
    (handleCheckError store e).store = store := by
  unfold handleCheckError
  split <;> rfl

theorem checkEmails_store_inv (cookie : Option String) (mb : Mailbox)
    (store : Store) : (checkEmails cookie mb store).store = store := by
  cases cookie with
  | none => rfl
  | some c =>
    unfold checkEmails
    dsimp only
    cases hl : mb.listResult with
    | error e => exact handleCheckError_store store e
    | ok ids =>
      dsimp only
      cases hs : scanMessages mb ids with
      | error e => exact handleCheckError_store store e
      | ok us => rfl

/-! Claim theorems. -/

/-- C1 (counterexample): a subject containing both the negative keyword
"unfortunately" and the positive keyword "interview" is classified
positive, not negative: the ternary at app.js line 443 gives positive
precedence, refuting the claimed negative precedence. -/
theorem c1_counterexample :
    hasPositive (jsToLower "Unfortunately interview") = true ∧
    hasNegative (jsToLower "Unfortunately interview") = true ∧
    classify (jsToLower "Unfortunately interview") = "positive" ∧
    (processMessage c1msg).map Update.type = some "positive" := by
  decide

/-- C1 (amended): for every message whose lowercased subject contains at
least one positive-keyword token and at least one negative-keyword token,
the classification performed by the email-check pipeline yields verdict
positive — positive takes precedence over negative. -/
theorem c1_positive_precedence (m : Message)
    (hp : hasPositive (jsToLower (headerValue m.headers "Subject")) = true)
    (hn : hasNegative (jsToLower (headerValue m.headers "Subject")) = true) :
    classify (jsToLower (headerValue m.headers "Subject")) = "positive" ∧
    processMessage m =
      some { company := headerValue m.headers "From", type := "positive",
             subject := headerValue m.headers "Subject" } := by
  constructor
  · simp [classify, hp]
  · simp [processMessage, hp, hn]

/-- C1 (witness): the amended precedence theorem applied to the concrete
mixed-keyword message. -/
theorem c1_positive_precedence_witness :
    classify (jsToLower (headerValue c1msg.headers "Subject")) = "positive" ∧
    processMessage c1msg =
      some { company := headerValue c1msg.headers "From", type := "positive",
             subject := headerValue c1msg.headers "Subject" } :=
  c1_positive_precedence c1msg (by decide) (by decide)

/-- C2 (counterexample): the update record of a concrete
negative-classified message has exactly the keys company, type and
subject; looking up suggestedStatus in its serialized fields yields
nothing, refuting the claim that negative messages carry suggestedStatus
rejected. -/
theorem c2_counterexample :
    processMessage c2msg =
      some { company := "noreply@corp.com", type := "negative",
             subject := "Unfortunately" } ∧
    lookupField
      (Update.fields
        { company := "noreply@corp.com", type := "negative",
          subject := "Unfortunately" }) "suggestedStatus" = none := by
  decide

/-- C2 (amended): the pipeline computes no suggested status at all: every
produced update record carries only the keys company, type and subject —
looking up suggestedStatus yields nothing — and its type is either
positive or negative. -/
theorem c2_no_suggested_status (m : Message) (u : Update)
    (h : processMessage m = some u) :
    lookupField u.fields "suggestedStatus" = none ∧
    (u.type = "positive" ∨ u.type = "negative") := by
  simp only [processMessage] at h
  split at h
  · injection h with h
    subst h
    refine ⟨rfl, ?_⟩
    cases hasPositive (jsToLower (headerValue m.headers "Subject"))
    · right; rfl
    · left; rfl
  · cases h

/-- C2 (witness): the amended theorem applied to the concrete negative
message. -/
theorem c2_no_suggested_status_witness :
    lookupField
      (Update.fields
        { company := "noreply@corp.com", type := "negative",
          subject := "Unfortunately" }) "suggestedStatus" = none ∧
    (({ company := "noreply@corp.com", type := "negative",
        subject := "Unfortunately" } : Update).type = "positive" ∨
     ({ company := "noreply@corp.com", type := "negative",
        subject := "Unfortunately" } : Update).type = "negative") :=
  c2_no_suggested_status c2msg
    { company := "noreply@corp.com", type := "negative",
      subject := "Unfortunately" } (by decide)

/-- C3 (counterexample): for the sender header HR@Acme.io the produced
record's company field is the raw header itself — not the claimed
pre-first-dot domain segment acme, and not even the lowercased raw
header — refuting both the extraction and the always-lowercase claim. -/
theorem c3_counterexample :
    processMessage c3msg =
      some { company := "HR@Acme.io", type := "positive",
             subject := "Interview invitation" } ∧
    ("HR@Acme.io" : String) ≠ "acme" ∧
    ("HR@Acme.io" : String) ≠ "hr@acme.io" := by
  decide

/-- C3 (amended): the company field of every produced update record equals
the raw From header verbatim: no domain extraction and no lowercasing is
performed. It is deterministic in the sender header but not normalized. -/
theorem c3_company_raw (m : Message) (u : Update)
    (h : processMessage m = some u) :
    u.company = headerValue m.headers "From" := by
  simp only [processMessage] at h
  split at h
  · injection h with h
    subst h
    rfl
  · cases h

/-- C3 (witness): the amended theorem applied to the mixed-case sender
message. -/
theorem c3_company_raw_witness :
    ({ company := "HR@Acme.io", type := "positive",
       subject := "Interview invitation" } : Update).company =
      headerValue c3msg.headers "From" :=
  c3_company_raw c3msg
    { company := "HR@Acme.io", type := "positive",
      subject := "Interview invitation" } (by decide)

/-- C4 (confirmed): for every tracked job in a terminal status (rejected
or offered) and every run of the email-check pipeline, the job store —
and hence the job's status — is exactly what it was before: the handler
performs no reconciliation write, so no terminal job ever transitions. -/
theorem c4_terminal_preserved (cookie : Option String) (mb : Mailbox)
    (store : Store) (j : Job) (hmem : j ∈ store)
    (hterm : j.status = some "rejected" ∨ j.status = some "offered") :
    (checkEmails cookie mb store).store = store ∧
    j ∈ (checkEmails cookie mb store).store := by
  refine ⟨checkEmails_store_inv cookie mb store, ?_⟩
  rw [checkEmails_store_inv cookie mb store]
  exact hmem

/-- C4 (witness): the terminal-preservation theorem applied to a concrete
rejected job and the mixed mailbox. -/
theorem c4_terminal_preserved_witness :
    (checkEmails (some "tok") mbBoom [jrej]).store = [jrej] ∧
    jrej ∈ (checkEmails (some "tok") mbBoom [jrej]).store :=
  c4_terminal_preserved (some "tok") mbBoom [jrej] jrej (by decide)
    (by decide)

/-- C6 (confirmed): a message whose lowercased subject matches neither
keyword set gets verdict none and produces no update record: the scan
loop pushes nothing for it, so it can reach neither the reconciler nor
the returned updates list. -/
theorem c6_none_dropped (m : Message)
    (hp : hasPositive (jsToLower (headerValue m.headers "Subject")) = false)
    (hn : hasNegative (jsToLower (headerValue m.headers "Subject")) = false) :
    classify (jsToLower (headerValue m.headers "Subject")) = "none" ∧
    processMessage m = none := by
  constructor
  · simp [classify, hp, hn]
  · simp [processMessage, hp, hn]

/-- C6 (witness): the drop theorem applied to a neutral greeting
message. -/
theorem c6_none_dropped_witness :
    classify (jsToLower (headerValue c6msg.headers "Subject")) = "none" ∧
    processMessage c6msg = none :=
  c6_none_dropped c6msg (by decide) (by decide)

/-- C7 (counterexample): a mailbox whose listing succeeds with two
messages, the first of which fetches and classifies fine while the
second's fetch fails, makes the whole scan fail with the check-failed
response: the single message failure is not skipped, refuting the claim
that the scan fails only when the listing call fails. -/
theorem c7_counterexample :
    mbBoom.listResult = Except.ok [1, 2] ∧
    mbBoom.getResult 1 = Except.ok c1msg ∧
    (processMessage c1msg).isSome = true ∧
    mbBoom.getResult 2 = Except.error boomErr ∧
    scanMessages mbBoom [1, 2] = Except.error boomErr ∧
    (checkEmails (some "tok") mbBoom []).response =
      CheckResponse.checkFailed "boom" :=
  ⟨rfl, rfl, rfl, rfl, rfl, rfl⟩

/-- C7 (amended): a processing failure on any single listed message aborts
the entire scan: the loop has no per-message recovery, so whenever the
listing succeeds but some listed message's fetch fails, the scan returns
an error response (token-expired or check-failed) and never an updates
list. -/
theorem c7_message_failure_aborts (c : String) (mb : Mailbox)
    (store : Store) (ids : List Nat) (i : Nat) (e : JsError)
    (hlist : mb.listResult = Except.ok ids) (hmem : i ∈ ids)
    (hget : mb.getResult i = Except.error e) :
    (∃ e2, scanMessages mb ids = Except.error e2) ∧
    ((checkEmails (some c) mb store).response = CheckResponse.tokenExpired ∨
     ∃ msg, (checkEmails (some c) mb store).response =
       CheckResponse.checkFailed msg) := by
  obtain ⟨e2, he2⟩ := scanMessages_error_of_mem mb ids i e hmem hget
  refine ⟨⟨e2, he2⟩, ?_⟩
  unfold checkEmails
  dsimp only
  rw [hlist]
  dsimp only
  rw [he2]
  dsimp only
  unfold handleCheckError
  split
  · left; rfl
  · right; exact ⟨e2.message, rfl⟩

/-- C7 (witness): the abort theorem applied to the mixed mailbox whose
second message fails to fetch. -/
theorem c7_message_failure_aborts_witness :
    (∃ e2, scanMessages mbBoom [1, 2] = Except.error e2) ∧
    ((checkEmails (some "tok") mbBoom []).response =
       CheckResponse.tokenExpired ∨
     ∃ msg, (checkEmails (some "tok") mbBoom []).response =
       CheckResponse.checkFailed msg) :=
  c7_message_failure_aborts "tok" mbBoom [] [1, 2] 2 boomErr rfl
    (by decide) rfl

/-- C10 (confirmed): the manual email-check scan is read-only with respect
to the tracked-job store: for every session cookie, mailbox and stored
collection, the store after the request equals the store before — the
handler performs no reconciliation write at all. -/
theorem c10_scan_frame (cookie : Option String) (mb : Mailbox)
    (store : Store) : (checkEmails cookie mb store).store = store :=
  checkEmails_store_inv cookie mb store

/-- C5 (confirmed): saving a job whose jobId is already tracked creates no
new record — the count of records holding that jobId stays 1 and the
store length is unchanged — and mutates the stored record's status only
when the requested status differs from the current one: an equal-status
save leaves the store untouched, a differing one rewrites exactly the
found record with the new status and lastUpdated := now. -/
theorem c5_existing_job_no_duplicate (env : SaveEnv) (body : SaveBody)
    (store : Store) (j : Job)
    (hval : (truthy body.jobId && truthy body.title &&
             truthy body.company && truthy body.link) = true)
    (huri : env.mongoUriSet = true) (hconn : env.connectOk = true)
    (hfind : store.find? (fun x => some x.jobId == body.jobId) = some j)
    (hone : store.countP (fun x => some x.jobId == body.jobId) = 1)
    (henum : validStatus body.status = true) :
    (saveJob env body store).2.countP
        (fun x => some x.jobId == body.jobId) = 1 ∧
    (saveJob env body store).2.length = store.length ∧
    (j.status = body.status → (saveJob env body store).2 = store) ∧
    (j.status ≠ body.status →
      (saveJob env body store).2.find?
          (fun x => some x.jobId == body.jobId) =
        some { j with status := body.status, lastUpdated := env.now }) := by
  have hpj := List.find?_some hfind
  have hrun : saveJob env body store =
      (if j.status != body.status then
        (SaveResponse.updated
           { j with status := body.status, lastUpdated := env.now },
         updateFirst (fun x => some x.jobId == body.jobId)
           (fun _ => { j with status := body.status,
                              lastUpdated := env.now }) store)
      else (SaveResponse.updated j, store)) := by
    simp [saveJob, hval, huri, hconn, hfind, henum]
  by_cases hst : j.status = body.status
  · have hbne : (j.status != body.status) = false := by
      rw [hst]; simp
    rw [hbne, if_neg (by simp)] at hrun
    refine ⟨?_, ?_, fun _ => ?_, fun hne => absurd hst hne⟩
    · rw [hrun]; exact hone
    · rw [hrun]
    · rw [hrun]
  · have hbne : (j.status != body.status) = true := bne_iff_ne.mpr hst
    rw [hbne, if_pos rfl] at hrun
    have hfj : ∀ x : Job,
        (fun x : Job => some x.jobId == body.jobId) x = true →
        (fun x : Job => some x.jobId == body.jobId)
          ((fun _ : Job => { j with status := body.status,
                                    lastUpdated := env.now }) x) = true :=
      fun _ _ => hpj
    refine ⟨?_, ?_, fun heq => absurd heq hst, fun _ => ?_⟩
    · rw [hrun]
      exact (countP_updateFirst _ _ store hfj).trans hone
    · rw [hrun]
      exact length_updateFirst _ _ store
    · rw [hrun]
      exact find?_updateFirst _ _ store j hpj hfind

/-- C5 (witness): the no-duplicate theorem applied to a concrete store
holding one record with the requested jobId and an equal-status body. -/
theorem c5_existing_job_no_duplicate_witness :
    (saveJob envEx bodyNoop [j0]).2.countP
        (fun x => some x.jobId == bodyNoop.jobId) = 1 ∧
    (saveJob envEx bodyNoop [j0]).2.length = [j0].length ∧
    (j0.status = bodyNoop.status → (saveJob envEx bodyNoop [j0]).2 = [j0]) ∧
    (j0.status ≠ bodyNoop.status →
      (saveJob envEx bodyNoop [j0]).2.find?
          (fun x => some x.jobId == bodyNoop.jobId) =
        some { j0 with status := bodyNoop.status,
                       lastUpdated := envEx.now }) :=
  c5_existing_job_no_duplicate envEx bodyNoop [j0] j0 (by decide)
    (by decide) (by decide) (by decide) (by decide) (by decide)

/-- C8 (counterexample): a PATCH carrying the status the job already has
leaves the status unchanged yet modifies lastUpdated, refuting the claim
that lastUpdated is modified exactly when an update operation changes the
status. -/
theorem c8_counterexample :
    (patchJob 5 1 (some "applied") [j0]).1 =
      some { j0 with lastUpdated := 5 } ∧
    ({ j0 with lastUpdated := 5 } : Job).status = j0.status ∧
    ({ j0 with lastUpdated := 5 } : Job).lastUpdated ≠ j0.lastUpdated := by
  decide

/-- C8 (amended): the POST save operation modifies lastUpdated exactly
when it changes the stored status — an equal-status save leaves the store
untouched — while the PATCH operation sets lastUpdated := now on every
successful write, including status-preserving ones; in both cases the new
timestamp is the current clock, so lastUpdated is non-decreasing whenever
the clock is. -/
theorem c8_lastUpdated_on_change :
    (∀ (env : SaveEnv) (body : SaveBody) (store : Store) (j : Job),
      (truthy body.jobId && truthy body.title &&
       truthy body.company && truthy body.link) = true →
      env.mongoUriSet = true → env.connectOk = true →
      store.find? (fun x => some x.jobId == body.jobId) = some j →
      j.status = body.status →
      (saveJob env body store).2 = store) ∧
    (∀ (now targetId : Nat) (bodyStatus : Option String) (store : Store)
       (j : Job),
      store.find? (fun x => x.id == targetId) = some j →
      j.lastUpdated ≤ now →
      ∃ j2, (patchJob now targetId bodyStatus store).1 = some j2 ∧
        j2.lastUpdated = now ∧ j.lastUpdated ≤ j2.lastUpdated) := by
  constructor
  · intro env body store j hval huri hconn hfind hst
    have hbne : (j.status != body.status) = false := by
      rw [hst]; simp
    simp [saveJob, hval, huri, hconn, hfind, hbne]
  · intro now targetId bodyStatus store j hfind hle
    refine
      ⟨{ j with
         status := match bodyStatus with | some s => some s | none => j.status,
         lastUpdated := now }, ?_, rfl, hle⟩
    simp [patchJob, hfind]

/-- C8 (witness): the amended theorem applied to a concrete equal-status
save and a concrete equal-status patch. -/
theorem c8_lastUpdated_on_change_witness :
    (saveJob envEx bodyNoop [j0]).2 = [j0] ∧
    ∃ j2, (patchJob 5 1 (some "applied") [j0]).1 = some j2 ∧
      j2.lastUpdated = 5 ∧ j0.lastUpdated ≤ j2.lastUpdated :=
  ⟨c8_lastUpdated_on_change.1 envEx bodyNoop [j0] j0 (by decide)
     (by decide) (by decide) (by decide) (by decide),
   c8_lastUpdated_on_change.2 5 1 (some "applied") [j0] j0 (by decide)
     (by decide)⟩

/-- C9 (confirmed): a save request missing any of jobId, title, company or
link fails with the 400 Missing-required-fields validation error, which is
distinct in both status code and error string from the backend
unavailability errors (500 Database-not-configured and 500
Failed-to-save-job), and the store is unchanged. -/
theorem c9_validation_error (env : SaveEnv) (body : SaveBody)
    (store : Store)
    (h : (truthy body.jobId && truthy body.title &&
          truthy body.company && truthy body.link) = false) :
    saveJob env body store = (SaveResponse.validationError, store) ∧
    SaveResponse.validationError.httpStatus = 400 ∧
    SaveResponse.dbNotConfigured.httpStatus = 500 ∧
    SaveResponse.saveFailed.httpStatus = 500 ∧
    SaveResponse.validationError.errorLabel ≠
      SaveResponse.dbNotConfigured.errorLabel ∧
    SaveResponse.validationError.errorLabel ≠
      SaveResponse.saveFailed.errorLabel := by
  refine ⟨?_, rfl, rfl, rfl, by decide, by decide⟩
  simp [saveJob, h]

/-- C9 (witness): the validation theorem applied to a concrete body with
no jobId. -/
theorem c9_validation_error_witness :
    saveJob envEx bodyNoId [j0] = (SaveResponse.validationError, [j0]) ∧
    SaveResponse.validationError.httpStatus = 400 ∧
    SaveResponse.dbNotConfigured.httpStatus = 500 ∧
    SaveResponse.saveFailed.httpStatus = 500 ∧
    SaveResponse.validationError.errorLabel ≠
      SaveResponse.dbNotConfigured.errorLabel ∧
    SaveResponse.validationError.errorLabel ≠
      SaveResponse.saveFailed.errorLabel :=
  c9_validation_error envEx bodyNoId [j0] (by decide)

end Jobby
